import Mathlib

/-!
Verification of the public-key material parser (`src/polarssl2/pkparse.c`).

The file shallowly embeds the parser: buffers are lists of bytes, the byte
cursor is a pair of positions `(p, e)` into the buffer, machine integers are
`Nat`/`Int`, and fallible reads return `Except Int`.  External collaborators
that are not part of the source file (the ASN.1/DER reader from `asn1.c`,
the OID resolver, the PEM decoder, the PBE decryptors, the big-integer and
elliptic-curve substrate, and the key-object allocation in `pk.c`) are either
modelled from the specification or kept abstract as an environment `Env` of
oracle functions, so that theorems about the dispatch and error logic of
`pkparse.c` hold for every behaviour of the collaborators.
-/

set_option maxHeartbeats 2000000

deriving instance DecidableEq for Except

namespace PkParse

/-- Byte buffer.  Cells are reduced mod 256 on every read, mirroring the
`unsigned char` cells of the C buffers; reads outside the list give 0
(the parser's scratch buffers are zero-initialized). -/
abbrev Buf := List Nat

def byteAt (b : Buf) (i : Nat) : Nat := b.getD i 0 % 256

/-- Materialized view of `len` bytes starting at `off`. -/
def subBuf (b : Buf) (off len : Nat) : Buf :=
  (List.range len).map (fun i => byteAt b (off + i))

/-- Big-endian value of the `len` bytes at `p` (the `mpi_read_binary` and
small-INTEGER accumulation loops). -/
def bytesToNat (b : Buf) (p len : Nat) : Nat :=
  (List.range len).foldl (fun acc i => acc * 256 + byteAt b (p + i)) 0

/-! Error constants.  The concrete numeric values live in headers that are
not part of the source tree (`asn1.h`, `pk.h`, `pem.h`, `pkcs12.h`,
`pkcs5.h`); they are modelled from the spec's error taxonomy as distinct
negative values in the PolarSSL style, where a layer composes an underlying
cause into its own domain by arithmetic addition of the two constants. -/

def POLARSSL_ERR_ASN1_OUT_OF_DATA : Int := -0x60
def POLARSSL_ERR_ASN1_UNEXPECTED_TAG : Int := -0x62
def POLARSSL_ERR_ASN1_INVALID_LENGTH : Int := -0x64
def POLARSSL_ERR_ASN1_LENGTH_MISMATCH : Int := -0x66
def POLARSSL_ERR_ASN1_INVALID_DATA : Int := -0x68

def POLARSSL_ERR_PK_MALLOC_FAILED : Int := -0x3F80
def POLARSSL_ERR_PK_BAD_INPUT_DATA : Int := -0x3F00
def POLARSSL_ERR_PK_KEY_INVALID_VERSION : Int := -0x3E00
def POLARSSL_ERR_PK_KEY_INVALID_FORMAT : Int := -0x3D80
def POLARSSL_ERR_PK_UNKNOWN_PK_ALG : Int := -0x3D00
def POLARSSL_ERR_PK_PASSWORD_REQUIRED : Int := -0x3C80
def POLARSSL_ERR_PK_PASSWORD_MISMATCH : Int := -0x3C00
def POLARSSL_ERR_PK_INVALID_PUBKEY : Int := -0x3B80
def POLARSSL_ERR_PK_INVALID_ALG : Int := -0x3B00
def POLARSSL_ERR_PK_UNKNOWN_NAMED_CURVE : Int := -0x3A80
def POLARSSL_ERR_PK_FEATURE_UNAVAILABLE : Int := -0x3A00

def POLARSSL_ERR_PEM_NO_HEADER_FOOTER_PRESENT : Int := -0x1080
def POLARSSL_ERR_PEM_PASSWORD_REQUIRED : Int := -0x1300
def POLARSSL_ERR_PEM_PASSWORD_MISMATCH : Int := -0x1380

def POLARSSL_ERR_PKCS12_PASSWORD_MISMATCH : Int := -0x1F00
def POLARSSL_ERR_PKCS5_PASSWORD_MISMATCH : Int := -0x2F00

def ASN1_INTEGER : Nat := 0x02
def ASN1_BIT_STRING : Nat := 0x03
def ASN1_OCTET_STRING : Nat := 0x04
def ASN1_NULL : Nat := 0x05
def ASN1_OID : Nat := 0x06
def ASN1_SEQUENCE : Nat := 0x10
def ASN1_CONSTRUCTED : Nat := 0x20
def ASN1_CONTEXT_SPECIFIC : Nat := 0x80

/-! The ASN.1/DER reader (component C1 of the spec).  Modelled from the
spec: `asn1.c` is not under `src/`; §4.1 specifies `get_tag` (expected tag
byte, short-form length below 128 or long-form with an explicit byte count
of one to four bytes, no indefinite length), the small-INTEGER read that
rejects negative and over-long encodings, the big-integer read, the
BIT STRING read that checks the unused-bits byte, and `get_alg`.  On
success each operation returns the decoded payload and the new cursor
position; on failure the ASN.1 error constant. -/

/-- Modelled from the spec: one long-form case of the DER length decoder:
`k` length bytes must be available after the form byte at `p`, and the
big-endian value they carry must fit before `e`. -/
def asn1_len_long (b : Buf) (p e k : Nat) : Except Int (Nat × Nat) :=
  if e < p + k + 1 then .error POLARSSL_ERR_ASN1_OUT_OF_DATA
  else if bytesToNat b (p + 1) k > e - (p + k + 1) then
    .error POLARSSL_ERR_ASN1_OUT_OF_DATA
  else .ok (bytesToNat b (p + 1) k, p + k + 1)

/-- Modelled from the spec: DER length decoding of `asn1.c`.  The cursor
stands at the length byte; short form below 128, else the low bits select
the number of explicit length bytes (one to four); the decoded content
length must fit before `e`. -/
def asn1_get_len (b : Buf) (p e : Nat) : Except Int (Nat × Nat) :=
  if e < p + 1 then .error POLARSSL_ERR_ASN1_OUT_OF_DATA
  else if byteAt b p < 0x80 then
    if byteAt b p > e - (p + 1) then .error POLARSSL_ERR_ASN1_OUT_OF_DATA
    else .ok (byteAt b p, p + 1)
  else
    match byteAt b p % 0x80 with
    | 1 => asn1_len_long b p e 1
    | 2 => asn1_len_long b p e 2
    | 3 => asn1_len_long b p e 3
    | 4 => asn1_len_long b p e 4
    | _ => .error POLARSSL_ERR_ASN1_INVALID_LENGTH

/-- Modelled from the spec: `asn1_get_tag` checks the tag byte and decodes
the DER length. -/
def asn1_get_tag (b : Buf) (p e : Nat) (tag : Nat) : Except Int (Nat × Nat) :=
  if e < p + 1 then .error POLARSSL_ERR_ASN1_OUT_OF_DATA
  else if byteAt b p ≠ tag then .error POLARSSL_ERR_ASN1_UNEXPECTED_TAG
  else asn1_get_len b (p + 1) e

/-- Modelled from the spec: small INTEGER read; rejects encodings longer
than the machine word (4 bytes) and encodings with the sign bit set. -/
def asn1_get_int (b : Buf) (p e : Nat) : Except Int (Nat × Nat) :=
  match asn1_get_tag b p e ASN1_INTEGER with
  | .error r => .error r
  | .ok (len, p1) =>
    if len > 4 ∨ byteAt b p1 ≥ 0x80 then .error POLARSSL_ERR_ASN1_INVALID_LENGTH
    else .ok (bytesToNat b p1 len, p1 + len)

/-- Modelled from the spec: INTEGER content read into an external
big integer; the big-integer read itself always succeeds. -/
def asn1_get_mpi (b : Buf) (p e : Nat) : Except Int (Nat × Nat) :=
  match asn1_get_tag b p e ASN1_INTEGER with
  | .error r => .error r
  | .ok (len, p1) => .ok (bytesToNat b p1 len, p1 + len)

/-- Modelled from the spec: BIT STRING whose leading unused-bits byte must
be zero; returns the length of the remaining content. -/
def asn1_get_bitstring_null (b : Buf) (p e : Nat) : Except Int (Nat × Nat) :=
  match asn1_get_tag b p e ASN1_BIT_STRING with
  | .error r => .error r
  | .ok (len, p1) =>
    if len < 2 ∨ byteAt b p1 ≠ 0 then .error POLARSSL_ERR_ASN1_INVALID_DATA
    else .ok (len - 1, p1 + 1)

/-- An ASN.1 element view: a tag together with the viewed bytes
(materialized; in C this is a pointer/length pair into the input). -/
structure asn1_buf where
  tag : Nat
  bytes : Buf
deriving DecidableEq

def asn1_buf_zero : asn1_buf := { tag := 0, bytes := [] }

/-- Modelled from the spec: AlgorithmIdentifier read.  Parses the SEQUENCE
header, the OBJECT IDENTIFIER, and captures whatever bytes remain up to the
end of the SEQUENCE as an opaque element view (absent when nothing
remains). -/
def asn1_get_alg (b : Buf) (p e : Nat) : Except Int (asn1_buf × asn1_buf × Nat) :=
  match asn1_get_tag b p e (ASN1_CONSTRUCTED + ASN1_SEQUENCE) with
  | .error r => .error r
  | .ok (len, p1) =>
    if e < p1 + 1 then .error POLARSSL_ERR_ASN1_OUT_OF_DATA
    else
      let algTag := byteAt b p1
      let e1 := p1 + len
      match asn1_get_tag b p1 e1 ASN1_OID with
      | .error r => .error r
      | .ok (olen, p2) =>
        let alg : asn1_buf := { tag := algTag, bytes := subBuf b p2 olen }
        let p3 := p2 + olen
        if p3 = e1 then .ok (alg, asn1_buf_zero, p3)
        else
          let ptag := byteAt b p3
          match asn1_get_len b (p3 + 1) e1 with
          | .error r => .error r
          | .ok (plen, p4) =>
            let ps : asn1_buf := { tag := ptag, bytes := subBuf b p4 plen }
            let p5 := p4 + plen
            if p5 ≠ e1 then .error POLARSSL_ERR_ASN1_LENGTH_MISMATCH
            else .ok (alg, ps, p5)

/-! The key-object data model (spec §3).  Big integers are `Nat`; the RSA
context carries the PKCS#1 fields, the EC keypair carries the group id, the
private scalar and the public point.  `mpi_size` is the byte size of a
big integer (fuel-based so that it evaluates by kernel reduction). -/

def mpi_size_aux : Nat → Nat → Nat
  | 0, _ => 0
  | fuel + 1, n => if n = 0 then 0 else mpi_size_aux fuel (n / 256) + 1

def mpi_size (n : Nat) : Nat := mpi_size_aux n n

structure rsa_context where
  ver : Nat
  len : Nat
  N : Nat
  E : Nat
  D : Nat
  P : Nat
  Q : Nat
  DP : Nat
  DQ : Nat
  QP : Nat
deriving DecidableEq

/-- Zero-initialized RSA context (`rsa_init` / a fresh `pk_init_ctx`
sub-object). -/
def rsa_init : rsa_context :=
  { ver := 0, len := 0, N := 0, E := 0, D := 0, P := 0, Q := 0,
    DP := 0, DQ := 0, QP := 0 }

/-- Modelled from the spec: `rsa_free` releases the eight big-integer
fields (an external MPI free resets them to zero); the `ver` and `len`
machine words are not touched by the MPI substrate. -/
def rsa_free (r : rsa_context) : rsa_context :=
  { r with N := 0, E := 0, D := 0, P := 0, Q := 0, DP := 0, DQ := 0, QP := 0 }

structure ecp_point where
  X : Nat
  Y : Nat
  Z : Nat
deriving DecidableEq

def ecp_point_zero : ecp_point := { X := 0, Y := 0, Z := 0 }

structure ecp_keypair where
  grp_id : Nat
  d : Nat
  Q : ecp_point
deriving DecidableEq

/-- Zero-initialized EC keypair; group id 0 is `POLARSSL_ECP_DP_NONE`. -/
def ecp_keypair_init : ecp_keypair := { grp_id := 0, d := 0, Q := ecp_point_zero }

/-- Modelled from the spec: releasing an EC keypair resets the group, the
scalar and the point. -/
def ecp_keypair_free (_k : ecp_keypair) : ecp_keypair := ecp_keypair_init

/-- The PK algorithm tag (spec §3); only these variants are produced by the
OID resolver for public-key algorithm OIDs. -/
inductive pk_type where
  | RSA
  | ECKEY
  | ECKEY_DH
deriving DecidableEq

/-- The key context: either uninitialized (`pk_info == NULL`) or bound to an
algorithm with its sub-object. -/
inductive pk_ctx where
  | uninit
  | rsa (r : rsa_context)
  | eckey (k : ecp_keypair)
  | eckey_dh (k : ecp_keypair)
deriving DecidableEq

/-- The `pk_rsa(*pk)` accessor (reads through the context cast). -/
def pk_rsa : pk_ctx → rsa_context
  | .rsa r => r
  | _ => rsa_init

/-- Writing back through the `pk_rsa` cast. -/
def pk_set_rsa (pk : pk_ctx) (r : rsa_context) : pk_ctx :=
  match pk with
  | .rsa _ => .rsa r
  | _ => pk

/-- The `pk_ec(*pk)` accessor. -/
def pk_ec : pk_ctx → ecp_keypair
  | .eckey k => k
  | .eckey_dh k => k
  | _ => ecp_keypair_init

/-- Writing back through the `pk_ec` cast. -/
def pk_set_ec (pk : pk_ctx) (k : ecp_keypair) : pk_ctx :=
  match pk with
  | .eckey _ => .eckey k
  | .eckey_dh _ => .eckey_dh k
  | _ => pk

/-- Modelled from the spec: `pk_free` releases the sub-object and returns
the context to the uninitialized state. -/
def pk_free (_pk : pk_ctx) : pk_ctx := .uninit

/-- PEM labels the dispatcher recognizes, in its order. -/
inductive PemLabel where
  | rsaKey
  | ecKey
  | pkcs8
  | pkcs8enc
  | pubKey
deriving DecidableEq

/-- Outcome of the external PEM decoder: a decoded payload, or an error
code (`NoHeaderFooterPresent` means the label did not match). -/
inductive PemResult where
  | ok (payload : Buf)
  | fail (code : Int)
deriving DecidableEq

/-- The environment of external collaborators (spec §6).  Keeping them
abstract lets the theorems about `pkparse.c` quantify over every behaviour
of the substrate; concrete instances are used for witnesses. -/
structure Env where
  oid_get_pk_alg : Buf → Option pk_type
  oid_get_ec_grp : Buf → Option Nat
  ecp_use_known_dp : Nat → Int
  ecp_point_read_binary : Nat → Buf → Except Int ecp_point
  ecp_check_pubkey : Nat → ecp_point → Int
  ecp_check_privkey : Nat → Nat → Int
  ecp_mul_G : Nat → Nat → Except Int ecp_point
  rsa_check_pubkey : rsa_context → Int
  rsa_check_privkey : rsa_context → Int
  ctx_alloc : pk_type → Bool
  pem_read : PemLabel → Buf → Buf → Nat → PemResult
  oid_get_pkcs12_pbe_alg : Buf → Bool
  oid_is_pkcs12_sha1_rc4_128 : Buf → Bool
  oid_is_pkcs5_pbes2 : Buf → Bool
  pkcs12_pbe : asn1_buf → Buf → Nat → Buf → Except Int Buf
  pkcs12_pbe_sha1_rc4_128 : asn1_buf → Buf → Nat → Buf → Except Int Buf
  pkcs5_pbes2 : asn1_buf → Buf → Nat → Buf → Except Int Buf

/-- Modelled from the spec: `pk_info_from_type` succeeds for every
supported algorithm tag (all capabilities enabled). -/
def pk_info_from_type (a : pk_type) : Option pk_type := some a

/-- Modelled from the spec: `pk_init_ctx` binds the context to an algorithm
with a zero-initialized sub-object; it fails on a non-fresh context or when
the sub-object allocation fails, leaving the context uninitialized. -/
def pk_init_ctx (env : Env) (pk : pk_ctx) (alg : pk_type) : Int × pk_ctx :=
  if pk ≠ .uninit then (POLARSSL_ERR_PK_BAD_INPUT_DATA, pk)
  else if env.ctx_alloc alg then
    match alg with
    | .RSA => (0, .rsa rsa_init)
    | .ECKEY => (0, .eckey ecp_keypair_init)
    | .ECKEY_DH => (0, .eckey_dh ecp_keypair_init)
  else (POLARSSL_ERR_PK_MALLOC_FAILED, pk)

/-! The structural parsers of `pkparse.c` itself, embedded one C function to
one definition.  Cursors are positions into the buffer; each function
returns the C `int` result together with the final state (and cursor where
the C advances a caller-visible pointer). -/

/-- Embeds `pk_get_ecparams` (pkparse.c lines 159-177): the ECParameters
CHOICE restricted to a namedCurve OBJECT IDENTIFIER, which must exactly
span the window. -/
def pk_get_ecparams (b : Buf) (p e : Nat) : Except Int (asn1_buf × Nat) :=
  let tag := byteAt b p
  match asn1_get_tag b p e ASN1_OID with
  | .error r => .error (POLARSSL_ERR_PK_KEY_INVALID_FORMAT + r)
  | .ok (len, p1) =>
    let ps : asn1_buf := { tag := tag, bytes := subBuf b p1 len }
    let p2 := p1 + len
    if p2 ≠ e then
      .error (POLARSSL_ERR_PK_KEY_INVALID_FORMAT + POLARSSL_ERR_ASN1_LENGTH_MISMATCH)
    else .ok (ps, p2)

/-- Embeds `pk_use_ecparams` (pkparse.c lines 182-200): resolve the curve
OID, require agreement with an already-initialized group, and load the
domain parameters.  Returns the resulting group id. -/
def pk_use_ecparams (env : Env) (ps : asn1_buf) (grp : Nat) : Except Int Nat :=
  match env.oid_get_ec_grp ps.bytes with
  | Option.none => .error POLARSSL_ERR_PK_UNKNOWN_NAMED_CURVE
  | Option.some gid =>
    if grp ≠ 0 ∧ grp ≠ gid then .error POLARSSL_ERR_PK_KEY_INVALID_FORMAT
    else if env.ecp_use_known_dp gid ≠ 0 then .error (env.ecp_use_known_dp gid)
    else .ok gid

/-- Embeds `pk_get_ecpubkey` (pkparse.c lines 205-224): read and validate
an EC point from the rest of the window; on failure the keypair is freed.
On success the cursor is known to stand at the end of the window. -/
def pk_get_ecpubkey (env : Env) (b : Buf) (p e : Nat) (key : ecp_keypair) :
    Int × Nat × ecp_keypair :=
  match env.ecp_point_read_binary key.grp_id (subBuf b p (e - p)) with
  | .error _ => (POLARSSL_ERR_PK_INVALID_PUBKEY, p, ecp_keypair_free key)
  | .ok q =>
    let key1 := { key with Q := q }
    if env.ecp_check_pubkey key1.grp_id key1.Q ≠ 0 then
      (POLARSSL_ERR_PK_INVALID_PUBKEY, p, ecp_keypair_free key1)
    else (0, e, key1)

/-- Embeds `pk_get_rsapubkey` (pkparse.c lines 234-263): the PKCS#1
RSAPublicKey SEQUENCE of the two INTEGERs N and E, exactly spanning the
window, followed by the public-key check. -/
def pk_get_rsapubkey (env : Env) (b : Buf) (p e : Nat) (rsa : rsa_context) :
    Int × Nat × rsa_context :=
  match asn1_get_tag b p e (ASN1_CONSTRUCTED + ASN1_SEQUENCE) with
  | .error r => (POLARSSL_ERR_PK_INVALID_PUBKEY + r, p, rsa)
  | .ok (len, p1) =>
    if p1 + len ≠ e then
      (POLARSSL_ERR_PK_INVALID_PUBKEY + POLARSSL_ERR_ASN1_LENGTH_MISMATCH, p1, rsa)
    else
      match asn1_get_mpi b p1 e with
      | .error r => (POLARSSL_ERR_PK_INVALID_PUBKEY + r, p1, rsa)
      | .ok (vN, p2) =>
        let rsa1 := { rsa with N := vN }
        match asn1_get_mpi b p2 e with
        | .error r => (POLARSSL_ERR_PK_INVALID_PUBKEY + r, p2, rsa1)
        | .ok (vE, p3) =>
          let rsa2 := { rsa1 with E := vE }
          if p3 ≠ e then
            (POLARSSL_ERR_PK_INVALID_PUBKEY + POLARSSL_ERR_ASN1_LENGTH_MISMATCH, p3, rsa2)
          else if env.rsa_check_pubkey rsa2 ≠ 0 then
            (POLARSSL_ERR_PK_INVALID_PUBKEY, p3, rsa2)
          else (0, p3, { rsa2 with len := mpi_size rsa2.N })

/-- Embeds `pk_get_pk_alg` (pkparse.c lines 272-298): AlgorithmIdentifier
to PK algorithm tag; RSA refuses parameters other than an absent field or
an empty NULL. -/
def pk_get_pk_alg (env : Env) (b : Buf) (p e : Nat) :
    Except Int (pk_type × asn1_buf × Nat) :=
  match asn1_get_alg b p e with
  | .error r => .error (POLARSSL_ERR_PK_INVALID_ALG + r)
  | .ok (alg, ps, p1) =>
    match env.oid_get_pk_alg alg.bytes with
    | Option.none => .error POLARSSL_ERR_PK_UNKNOWN_PK_ALG
    | Option.some t =>
      if t = pk_type.RSA ∧
          ((ps.tag ≠ ASN1_NULL ∧ ps.tag ≠ 0) ∨ ps.bytes.length ≠ 0) then
        .error POLARSSL_ERR_PK_INVALID_ALG
      else .ok (t, ps, p1)

/-- Return value of the trailing-bytes check in `pk_parse_subpubkey`
(pkparse.c lines 355-356).  In the source the two error macros appear with
no operator between them; after macro expansion the token sequence reads
`-0x3B80 -0x0066`, which C parses as the binary subtraction below. -/
def pk_subpubkey_trailing_ret : Int := POLARSSL_ERR_PK_INVALID_PUBKEY - 0x0066

/-- Embeds `pk_parse_subpubkey` (pkparse.c lines 305-362): the
SubjectPublicKeyInfo SEQUENCE of an AlgorithmIdentifier and a BIT STRING,
dispatched on the PK algorithm; on any error after binding, the context is
freed. -/
def pk_parse_subpubkey (env : Env) (b : Buf) (p e : Nat) (pk : pk_ctx) :
    Int × Nat × pk_ctx :=
  match asn1_get_tag b p e (ASN1_CONSTRUCTED + ASN1_SEQUENCE) with
  | .error r => (POLARSSL_ERR_PK_KEY_INVALID_FORMAT + r, p, pk)
  | .ok (len, p1) =>
    let e1 := p1 + len
    match pk_get_pk_alg env b p1 e1 with
    | .error r => (r, p1, pk)
    | .ok (pk_alg, alg_params, p2) =>
      match asn1_get_bitstring_null b p2 e1 with
      | .error r => (POLARSSL_ERR_PK_INVALID_PUBKEY + r, p2, pk)
      | .ok (len2, p3) =>
        if p3 + len2 ≠ e1 then
          (POLARSSL_ERR_PK_INVALID_PUBKEY + POLARSSL_ERR_ASN1_LENGTH_MISMATCH, p3, pk)
        else
          match pk_info_from_type pk_alg with
          | Option.none => (POLARSSL_ERR_PK_UNKNOWN_PK_ALG, p3, pk)
          | Option.some _ =>
            let ini := pk_init_ctx env pk pk_alg
            if ini.1 ≠ 0 then (ini.1, p3, ini.2)
            else
              let step : Int × Nat × pk_ctx :=
                match pk_alg with
                | .RSA =>
                  let res := pk_get_rsapubkey env b p3 e1 (pk_rsa ini.2)
                  (res.1, res.2.1, pk_set_rsa ini.2 res.2.2)
                | _ =>
                  match pk_use_ecparams env alg_params (pk_ec ini.2).grp_id with
                  | .error r2 => (r2, p3, ini.2)
                  | .ok gid =>
                    let pk2 := pk_set_ec ini.2 { pk_ec ini.2 with grp_id := gid }
                    let res := pk_get_ecpubkey env b p3 e1 (pk_ec pk2)
                    (res.1, res.2.1, pk_set_ec pk2 res.2.2)
              let r6 := if step.1 = 0 ∧ step.2.1 ≠ e1 then pk_subpubkey_trailing_ret else step.1
              if r6 ≠ 0 then (r6, step.2.1, pk_free step.2.2)
              else (r6, step.2.1, step.2.2)

/-- Embeds `pk_parse_key_pkcs1_der` (pkparse.c lines 368-442): the PKCS#1
RSAPrivateKey SEQUENCE; version 0, the eight big integers, no trailing
bytes, then the private-key check.  `p0` is the offset of the window the C
caller passes as a pointer. -/
def pk_parse_key_pkcs1_der (env : Env) (rsa : rsa_context) (key : Buf)
    (p0 keylen : Nat) : Int × rsa_context :=
  match asn1_get_tag key p0 (p0 + keylen) (ASN1_CONSTRUCTED + ASN1_SEQUENCE) with
  | .error r => (POLARSSL_ERR_PK_KEY_INVALID_FORMAT + r, rsa)
  | .ok (len, p1) =>
    let e := p1 + len
    match asn1_get_int key p1 e with
    | .error r => (POLARSSL_ERR_PK_KEY_INVALID_FORMAT + r, rsa)
    | .ok (ver, p2) =>
      let rsa0 := { rsa with ver := ver }
      if ver ≠ 0 then (POLARSSL_ERR_PK_KEY_INVALID_VERSION, rsa0)
      else
        match asn1_get_mpi key p2 e with
        | .error r => (POLARSSL_ERR_PK_KEY_INVALID_FORMAT + r, rsa_free rsa0)
        | .ok (vN, p3) =>
          let rsa1 := { rsa0 with N := vN }
          match asn1_get_mpi key p3 e with
          | .error r => (POLARSSL_ERR_PK_KEY_INVALID_FORMAT + r, rsa_free rsa1)
          | .ok (vE, p4) =>
            let rsa2 := { rsa1 with E := vE }
            match asn1_get_mpi key p4 e with
            | .error r => (POLARSSL_ERR_PK_KEY_INVALID_FORMAT + r, rsa_free rsa2)
            | .ok (vD, p5) =>
              let rsa3 := { rsa2 with D := vD }
              match asn1_get_mpi key p5 e with
              | .error r => (POLARSSL_ERR_PK_KEY_INVALID_FORMAT + r, rsa_free rsa3)
              | .ok (vP, p6) =>
                let rsa4 := { rsa3 with P := vP }
                match asn1_get_mpi key p6 e with
                | .error r => (POLARSSL_ERR_PK_KEY_INVALID_FORMAT + r, rsa_free rsa4)
                | .ok (vQ, p7) =>
                  let rsa5 := { rsa4 with Q := vQ }
                  match asn1_get_mpi key p7 e with
                  | .error r => (POLARSSL_ERR_PK_KEY_INVALID_FORMAT + r, rsa_free rsa5)
                  | .ok (vDP, p8) =>
                    let rsa6 := { rsa5 with DP := vDP }
                    match asn1_get_mpi key p8 e with
                    | .error r => (POLARSSL_ERR_PK_KEY_INVALID_FORMAT + r, rsa_free rsa6)
                    | .ok (vDQ, p9) =>
                      let rsa7 := { rsa6 with DQ := vDQ }
                      match asn1_get_mpi key p9 e with
                      | .error r => (POLARSSL_ERR_PK_KEY_INVALID_FORMAT + r, rsa_free rsa7)
                      | .ok (vQP, p10) =>
                        let rsa8 := { rsa7 with QP := vQP }
                        let rsa9 := { rsa8 with len := mpi_size rsa8.N }
                        if p10 ≠ e then
                          (POLARSSL_ERR_PK_KEY_INVALID_FORMAT +
                             POLARSSL_ERR_ASN1_LENGTH_MISMATCH, rsa_free rsa9)
                        else if env.rsa_check_privkey rsa9 ≠ 0 then
                          (env.rsa_check_privkey rsa9, rsa_free rsa9)
                        else (0, rsa9)

/-- Final private-scalar check of `pk_parse_key_sec1_der` (pkparse.c lines
545-551). -/
def pk_parse_key_sec1_der_end (env : Env) (eck : ecp_keypair) : Int × ecp_keypair :=
  if env.ecp_check_privkey eck.grp_id eck.d ≠ 0 then
    (env.ecp_check_privkey eck.grp_id eck.d, ecp_keypair_free eck)
  else (0, eck)

/-- Optional `[1] publicKey` section of `pk_parse_key_sec1_der` (pkparse.c
lines 515-543): if the context tag is present the BIT STRING point is read
and validated; if the probe fails with `UNEXPECTED_TAG` the public point is
computed as d times the base point; any other probe outcome is an error. -/
def pk_parse_key_sec1_der_pub (env : Env) (eck : ecp_keypair) (key : Buf)
    (p e : Nat) : Int × ecp_keypair :=
  match asn1_get_tag key p e (ASN1_CONTEXT_SPECIFIC + ASN1_CONSTRUCTED + 1) with
  | .ok (len, p1) =>
    let e2 := p1 + len
    match asn1_get_bitstring_null key p1 e2 with
    | .error r => (POLARSSL_ERR_PK_KEY_INVALID_FORMAT + r, eck)
    | .ok (len2, p2) =>
      if p2 + len2 ≠ e2 then
        (POLARSSL_ERR_PK_KEY_INVALID_FORMAT + POLARSSL_ERR_ASN1_LENGTH_MISMATCH, eck)
      else
        let res := pk_get_ecpubkey env key p2 e2 eck
        if res.1 ≠ 0 then (res.1, res.2.2)
        else pk_parse_key_sec1_der_end env res.2.2
  | .error r =>
    if r ≠ POLARSSL_ERR_ASN1_UNEXPECTED_TAG then
      (POLARSSL_ERR_PK_KEY_INVALID_FORMAT + r, ecp_keypair_free eck)
    else
      match env.ecp_mul_G eck.grp_id eck.d with
      | .error r2 => (POLARSSL_ERR_PK_KEY_INVALID_FORMAT + r2, ecp_keypair_free eck)
      | .ok q => pk_parse_key_sec1_der_end env { eck with Q := q }

/-- Embeds `pk_parse_key_sec1_der` (pkparse.c lines 449-552): the SEC1
ECPrivateKey SEQUENCE; version 1, the private scalar OCTET STRING, the
optional `[0]` ECParameters, then the `[1]` publicKey section above. -/
def pk_parse_key_sec1_der (env : Env) (eck : ecp_keypair) (key : Buf)
    (p0 keylen : Nat) : Int × ecp_keypair :=
  match asn1_get_tag key p0 (p0 + keylen) (ASN1_CONSTRUCTED + ASN1_SEQUENCE) with
  | .error r => (POLARSSL_ERR_PK_KEY_INVALID_FORMAT + r, eck)
  | .ok (len, p1) =>
    let e := p1 + len
    match asn1_get_int key p1 e with
    | .error r => (POLARSSL_ERR_PK_KEY_INVALID_FORMAT + r, eck)
    | .ok (version, p2) =>
      if version ≠ 1 then (POLARSSL_ERR_PK_KEY_INVALID_VERSION, eck)
      else
        match asn1_get_tag key p2 e ASN1_OCTET_STRING with
        | .error r => (POLARSSL_ERR_PK_KEY_INVALID_FORMAT + r, eck)
        | .ok (len2, p3) =>
          let eck1 := { eck with d := bytesToNat key p3 len2 }
          let p4 := p3 + len2
          match asn1_get_tag key p4 e (ASN1_CONTEXT_SPECIFIC + ASN1_CONSTRUCTED + 0) with
          | .ok (len3, p5) =>
            (match pk_get_ecparams key p5 (p5 + len3) with
             | .error r => (r, ecp_keypair_free eck1)
             | .ok (ps, p6) =>
               match pk_use_ecparams env ps eck1.grp_id with
               | .error r => (r, ecp_keypair_free eck1)
               | .ok gid => pk_parse_key_sec1_der_pub env { eck1 with grp_id := gid } key p6 e)
          | .error r =>
            if r ≠ POLARSSL_ERR_ASN1_UNEXPECTED_TAG then
              (POLARSSL_ERR_PK_KEY_INVALID_FORMAT + r, ecp_keypair_free eck1)
            else pk_parse_key_sec1_der_pub env eck1 key p4 e

/-- Embeds `pk_parse_key_pkcs8_unencrypted_der` (pkparse.c lines 558-641):
the PKCS#8 PrivateKeyInfo SEQUENCE; version 0, the PK AlgorithmIdentifier,
the privateKey OCTET STRING handed to the PKCS#1 or SEC1 parser.  Note the
buffer may extend past the outer SEQUENCE: after the header only the
decoded length bounds the parse. -/
def pk_parse_key_pkcs8_unencrypted_der (env : Env) (pk : pk_ctx) (key : Buf)
    (keylen : Nat) : Int × pk_ctx :=
  match asn1_get_tag key 0 keylen (ASN1_CONSTRUCTED + ASN1_SEQUENCE) with
  | .error r => (POLARSSL_ERR_PK_KEY_INVALID_FORMAT + r, pk)
  | .ok (len, p1) =>
    let e := p1 + len
    match asn1_get_int key p1 e with
    | .error r => (POLARSSL_ERR_PK_KEY_INVALID_FORMAT + r, pk)
    | .ok (version, p2) =>
      if version ≠ 0 then (POLARSSL_ERR_PK_KEY_INVALID_VERSION + 0, pk)
      else
        match pk_get_pk_alg env key p2 e with
        | .error r => (POLARSSL_ERR_PK_KEY_INVALID_FORMAT + r, pk)
        | .ok (pk_alg, ps, p3) =>
          match asn1_get_tag key p3 e ASN1_OCTET_STRING with
          | .error r => (POLARSSL_ERR_PK_KEY_INVALID_FORMAT + r, pk)
          | .ok (len2, p4) =>
            if len2 < 1 then
              (POLARSSL_ERR_PK_KEY_INVALID_FORMAT + POLARSSL_ERR_ASN1_OUT_OF_DATA, pk)
            else
              match pk_info_from_type pk_alg with
              | Option.none => (POLARSSL_ERR_PK_UNKNOWN_PK_ALG, pk)
              | Option.some _ =>
                let ini := pk_init_ctx env pk pk_alg
                if ini.1 ≠ 0 then (ini.1, ini.2)
                else
                  match pk_alg with
                  | .RSA =>
                    let res := pk_parse_key_pkcs1_der env (pk_rsa ini.2) key p4 len2
                    let pk2 := pk_set_rsa ini.2 res.2
                    if res.1 ≠ 0 then (res.1, pk_free pk2) else (0, pk2)
                  | _ =>
                    match pk_use_ecparams env ps (pk_ec ini.2).grp_id with
                    | .error r2 => (r2, pk_free ini.2)
                    | .ok gid =>
                      let pk2 := pk_set_ec ini.2 { pk_ec ini.2 with grp_id := gid }
                      let res := pk_parse_key_sec1_der env (pk_ec pk2) key p4 len2
                      let pk3 := pk_set_ec pk2 res.2
                      if res.1 ≠ 0 then (res.1, pk_free pk3) else (0, pk3)

/-- Embeds `pk_parse_key_pkcs8_encrypted_der` (pkparse.c lines 646-754):
requires a nonzero-length password up front, parses the
EncryptedPrivateKeyInfo SEQUENCE, dispatches on the encryption OID to a PBE
decryptor (the SHA1-RC4-128 branch inspects the first plaintext byte as a
password-mismatch heuristic), and re-feeds the plaintext to the
PrivateKeyInfo parser with the full ciphertext length. -/
def pk_parse_key_pkcs8_encrypted_der (env : Env) (pk : pk_ctx) (key : Buf)
    (keylen : Nat) (pwd : Buf) (pwdlen : Nat) : Int × pk_ctx :=
  if pwdlen = 0 then (POLARSSL_ERR_PK_PASSWORD_REQUIRED, pk)
  else
    match asn1_get_tag key 0 keylen (ASN1_CONSTRUCTED + ASN1_SEQUENCE) with
    | .error r => (POLARSSL_ERR_PK_KEY_INVALID_FORMAT + r, pk)
    | .ok (len, p1) =>
      let e := p1 + len
      match asn1_get_alg key p1 e with
      | .error r => (POLARSSL_ERR_PK_KEY_INVALID_FORMAT + r, pk)
      | .ok (pbe_alg_oid, pbe_params, p2) =>
        match asn1_get_tag key p2 e ASN1_OCTET_STRING with
        | .error r => (POLARSSL_ERR_PK_KEY_INVALID_FORMAT + r, pk)
        | .ok (len2, p3) =>
          if len2 > 2048 then (POLARSSL_ERR_PK_BAD_INPUT_DATA, pk)
          else
            let ct := subBuf key p3 len2
            if env.oid_get_pkcs12_pbe_alg pbe_alg_oid.bytes then
              match env.pkcs12_pbe pbe_params pwd pwdlen ct with
              | .error r =>
                if r = POLARSSL_ERR_PKCS12_PASSWORD_MISMATCH then
                  (POLARSSL_ERR_PK_PASSWORD_MISMATCH, pk)
                else (r, pk)
              | .ok pt => pk_parse_key_pkcs8_unencrypted_der env pk pt len2
            else if env.oid_is_pkcs12_sha1_rc4_128 pbe_alg_oid.bytes then
              match env.pkcs12_pbe_sha1_rc4_128 pbe_params pwd pwdlen ct with
              | .error r => (r, pk)
              | .ok pt =>
                if byteAt pt 0 ≠ ASN1_CONSTRUCTED + ASN1_SEQUENCE then
                  (POLARSSL_ERR_PK_PASSWORD_MISMATCH, pk)
                else pk_parse_key_pkcs8_unencrypted_der env pk pt len2
            else if env.oid_is_pkcs5_pbes2 pbe_alg_oid.bytes then
              match env.pkcs5_pbes2 pbe_params pwd pwdlen ct with
              | .error r =>
                if r = POLARSSL_ERR_PKCS5_PASSWORD_MISMATCH then
                  (POLARSSL_ERR_PK_PASSWORD_MISMATCH, pk)
                else (r, pk)
              | .ok pt => pk_parse_key_pkcs8_unencrypted_der env pk pt len2
            else (POLARSSL_ERR_PK_FEATURE_UNAVAILABLE, pk)

/-- Embeds `pk_parse_key` (pkparse.c lines 759-921): the PEM recognizers in
their order (RSA, EC, PKCS#8, encrypted PKCS#8), then the DER fallbacks
(encrypted PKCS#8, unencrypted PKCS#8, PKCS#1, SEC1).  The password is
passed to the PEM decoder only for the RSA and EC labels.  Note the source
returns 0 from the PKCS#1/SEC1 fallbacks when `pk_init_ctx` itself fails
(lines 898-902 and 911-915). -/
def pk_parse_key (env : Env) (pk : pk_ctx) (key : Buf) (keylen : Nat)
    (pwd : Buf) (pwdlen : Nat) : Int × pk_ctx :=
  match env.pem_read .rsaKey key pwd pwdlen with
  | .ok payload =>
    let ini := pk_init_ctx env pk .RSA
    if ini.1 ≠ 0 then (ini.1, pk_free ini.2)
    else
      let res := pk_parse_key_pkcs1_der env (pk_rsa ini.2) payload 0 payload.length
      let pk2 := pk_set_rsa ini.2 res.2
      if res.1 ≠ 0 then (res.1, pk_free pk2) else (0, pk2)
  | .fail c1 =>
    if c1 = POLARSSL_ERR_PEM_PASSWORD_MISMATCH then (POLARSSL_ERR_PK_PASSWORD_MISMATCH, pk)
    else if c1 = POLARSSL_ERR_PEM_PASSWORD_REQUIRED then (POLARSSL_ERR_PK_PASSWORD_REQUIRED, pk)
    else if c1 ≠ POLARSSL_ERR_PEM_NO_HEADER_FOOTER_PRESENT then (c1, pk)
    else
      match env.pem_read .ecKey key pwd pwdlen with
      | .ok payload =>
        let ini := pk_init_ctx env pk .ECKEY
        if ini.1 ≠ 0 then (ini.1, pk_free ini.2)
        else
          let res := pk_parse_key_sec1_der env (pk_ec ini.2) payload 0 payload.length
          let pk2 := pk_set_ec ini.2 res.2
          if res.1 ≠ 0 then (res.1, pk_free pk2) else (0, pk2)
      | .fail c2 =>
        if c2 = POLARSSL_ERR_PEM_PASSWORD_MISMATCH then (POLARSSL_ERR_PK_PASSWORD_MISMATCH, pk)
        else if c2 = POLARSSL_ERR_PEM_PASSWORD_REQUIRED then (POLARSSL_ERR_PK_PASSWORD_REQUIRED, pk)
        else if c2 ≠ POLARSSL_ERR_PEM_NO_HEADER_FOOTER_PRESENT then (c2, pk)
        else
          match env.pem_read .pkcs8 key [] 0 with
          | .ok payload =>
            let res := pk_parse_key_pkcs8_unencrypted_der env pk payload payload.length
            if res.1 ≠ 0 then (res.1, pk_free res.2) else (0, res.2)
          | .fail c3 =>
            if c3 ≠ POLARSSL_ERR_PEM_NO_HEADER_FOOTER_PRESENT then (c3, pk)
            else
              match env.pem_read .pkcs8enc key [] 0 with
              | .ok payload =>
                let res :=
                  pk_parse_key_pkcs8_encrypted_der env pk payload payload.length pwd pwdlen
                if res.1 ≠ 0 then (res.1, pk_free res.2) else (0, res.2)
              | .fail c4 =>
                if c4 ≠ POLARSSL_ERR_PEM_NO_HEADER_FOOTER_PRESENT then (c4, pk)
                else
                  let a1 := pk_parse_key_pkcs8_encrypted_der env pk key keylen pwd pwdlen
                  if a1.1 = 0 then (0, a1.2)
                  else
                    let pk6 := pk_free a1.2
                    if a1.1 = POLARSSL_ERR_PK_PASSWORD_MISMATCH then (a1.1, pk6)
                    else
                      let a2 := pk_parse_key_pkcs8_unencrypted_der env pk6 key keylen
                      if a2.1 = 0 then (0, a2.2)
                      else
                        let pk8 := pk_free a2.2
                        let ini3 := pk_init_ctx env pk8 .RSA
                        if ini3.1 ≠ 0 then (0, ini3.2)
                        else
                          let a3 := pk_parse_key_pkcs1_der env (pk_rsa ini3.2) key 0 keylen
                          let pk10 := pk_set_rsa ini3.2 a3.2
                          if a3.1 = 0 then (0, pk10)
                          else
                            let pk11 := pk_free pk10
                            let ini4 := pk_init_ctx env pk11 .ECKEY
                            if ini4.1 ≠ 0 then (0, ini4.2)
                            else
                              let a4 := pk_parse_key_sec1_der env (pk_ec ini4.2) key 0 keylen
                              let pk13 := pk_set_ec ini4.2 a4.2
                              if a4.1 = 0 then (0, pk13)
                              else (POLARSSL_ERR_PK_KEY_INVALID_FORMAT, pk_free pk13)

/-- Embeds `pk_parse_public_key` (pkparse.c lines 926-964): an optional
PUBLIC KEY PEM armour, then `pk_parse_subpubkey` over the working buffer. -/
def pk_parse_public_key (env : Env) (pk : pk_ctx) (key : Buf) (keylen : Nat) :
    Int × pk_ctx :=
  match env.pem_read .pubKey key [] 0 with
  | .ok payload =>
    let res := pk_parse_subpubkey env payload 0 payload.length pk
    (res.1, res.2.2)
  | .fail c =>
    if c ≠ POLARSSL_ERR_PEM_NO_HEADER_FOOTER_PRESENT then (c, pk)
    else
      let res := pk_parse_subpubkey env key 0 keylen pk
      (res.1, res.2.2)

/-! A concrete environment and concrete inputs, used to instantiate the
universally quantified theorems below on explicit byte strings. -/

/-- A minimal PKCS#1 RSAPrivateKey: version 0 and eight one-byte INTEGERs
with value 1. -/
def derPkcs1 : Buf :=
  [0x30, 0x1B, 0x02, 0x01, 0x00,
   0x02, 0x01, 0x01, 0x02, 0x01, 0x01, 0x02, 0x01, 0x01, 0x02, 0x01, 0x01,
   0x02, 0x01, 0x01, 0x02, 0x01, 0x01, 0x02, 0x01, 0x01, 0x02, 0x01, 0x01]

/-- A PrivateKeyInfo wrapping `derPkcs1` under the RSA algorithm OID
`[0x2A]` with NULL parameters (43 bytes). -/
def ptPKI : Buf :=
  [0x30, 0x29, 0x02, 0x01, 0x00,
   0x30, 0x05, 0x06, 0x01, 0x2A, 0x05, 0x00,
   0x04, 0x1D] ++ derPkcs1

/-- Concrete collaborator environment: OID byte `0x2A` resolves to RSA and
`0x2B` to an EC key, curve OID byte `0x07` resolves to group 3, all
validity checks pass, allocation succeeds, no PEM label ever matches, the
PBES2 decryptor (OID byte `0x0D`) accepts exactly the password `[0x70]`
and returns the fixed PrivateKeyInfo plaintext `ptPKI`, and the RC4
decryptor (OID byte `0x0C`) returns a plaintext whose first byte is not
0x30. -/
def env0 : Env :=
  { oid_get_pk_alg := fun b =>
      if b = [0x2A] then some pk_type.RSA
      else if b = [0x2B] then some pk_type.ECKEY
      else Option.none
    oid_get_ec_grp := fun b => if b = [0x07] then some 3 else Option.none
    ecp_use_known_dp := fun _ => 0
    ecp_point_read_binary := fun _ b =>
      if b = [0x04, 0x05, 0x06] then .ok { X := 5, Y := 6, Z := 1 } else .error (-0x4F80)
    ecp_check_pubkey := fun _ _ => 0
    ecp_check_privkey := fun _ _ => 0
    ecp_mul_G := fun g d => .ok { X := g + d, Y := d, Z := 1 }
    rsa_check_pubkey := fun _ => 0
    rsa_check_privkey := fun _ => 0
    ctx_alloc := fun _ => true
    pem_read := fun _ _ _ _ => .fail POLARSSL_ERR_PEM_NO_HEADER_FOOTER_PRESENT
    oid_get_pkcs12_pbe_alg := fun _ => false
    oid_is_pkcs12_sha1_rc4_128 := fun b => b = [0x0C]
    oid_is_pkcs5_pbes2 := fun b => b = [0x0D]
    pkcs12_pbe := fun _ _ _ _ => .error (-0x1E00)
    pkcs12_pbe_sha1_rc4_128 := fun _ _ _ _ => .ok [0x41]
    pkcs5_pbes2 := fun _ pwd _ _ =>
      if pwd = [0x70] then .ok ptPKI else .error POLARSSL_ERR_PKCS5_PASSWORD_MISMATCH }

/-! Helper lemmas: every ASN.1 reader error code is negative, and the
PK-layer wrappers around them stay negative (used to rule error branches
out of success cases). -/

theorem asn1_len_long_errorNeg {b : Buf} {p e k : Nat} {r : Int}
    (h : asn1_len_long b p e k = .error r) : r < 0 := by
  unfold asn1_len_long at h
  repeat' split at h
  all_goals first
    | (simp only [POLARSSL_ERR_ASN1_OUT_OF_DATA, Except.error.injEq] at h
       omega)
    | simp at h

theorem asn1_get_len_errorNeg {b : Buf} {p e : Nat} {r : Int}
    (h : asn1_get_len b p e = .error r) : r < 0 := by
  unfold asn1_get_len at h
  repeat' split at h
  all_goals first
    | (simp only [POLARSSL_ERR_ASN1_OUT_OF_DATA, POLARSSL_ERR_ASN1_INVALID_LENGTH,
        Except.error.injEq] at h
       omega)
    | exact asn1_len_long_errorNeg h
    | simp at h

theorem asn1_get_tag_errorNeg {b : Buf} {p e t : Nat} {r : Int}
    (h : asn1_get_tag b p e t = .error r) : r < 0 := by
  unfold asn1_get_tag at h
  repeat' split at h
  · simp only [POLARSSL_ERR_ASN1_OUT_OF_DATA, Except.error.injEq] at h; omega
  · simp only [POLARSSL_ERR_ASN1_UNEXPECTED_TAG, Except.error.injEq] at h; omega
  · exact asn1_get_len_errorNeg h

theorem asn1_get_int_errorNeg {b : Buf} {p e : Nat} {r : Int}
    (h : asn1_get_int b p e = .error r) : r < 0 := by
  unfold asn1_get_int at h
  split at h
  · rename_i r1 heq
    simp only [Except.error.injEq] at h
    subst h
    exact asn1_get_tag_errorNeg heq
  · split at h
    · simp only [POLARSSL_ERR_ASN1_INVALID_LENGTH, Except.error.injEq] at h; omega
    · simp at h

theorem asn1_get_mpi_errorNeg {b : Buf} {p e : Nat} {r : Int}
    (h : asn1_get_mpi b p e = .error r) : r < 0 := by
  unfold asn1_get_mpi at h
  split at h
  · rename_i r1 heq
    simp only [Except.error.injEq] at h
    subst h
    exact asn1_get_tag_errorNeg heq
  · simp at h

theorem asn1_get_bitstring_null_errorNeg {b : Buf} {p e : Nat} {r : Int}
    (h : asn1_get_bitstring_null b p e = .error r) : r < 0 := by
  unfold asn1_get_bitstring_null at h
  split at h
  · rename_i r1 heq
    simp only [Except.error.injEq] at h
    subst h
    exact asn1_get_tag_errorNeg heq
  · split at h
    · simp only [POLARSSL_ERR_ASN1_INVALID_DATA, Except.error.injEq] at h; omega
    · simp at h

theorem asn1_get_alg_errorNeg {b : Buf} {p e : Nat} {r : Int}
    (h : asn1_get_alg b p e = .error r) : r < 0 := by
  unfold asn1_get_alg at h
  simp only [] at h
  split at h
  · rename_i r1 heq
    simp only [Except.error.injEq] at h
    subst h
    exact asn1_get_tag_errorNeg heq
  · rename_i len p1 heq0
    split at h
    · simp only [POLARSSL_ERR_ASN1_OUT_OF_DATA, Except.error.injEq] at h; omega
    · split at h
      · rename_i r1 heq
        simp only [Except.error.injEq] at h
        subst h
        exact asn1_get_tag_errorNeg heq
      · rename_i olen p2 heq
        split at h
        · simp at h
        · split at h
          · rename_i r1 heq2
            simp only [Except.error.injEq] at h
            subst h
            exact asn1_get_len_errorNeg heq2
          · split at h
            · simp only [POLARSSL_ERR_ASN1_LENGTH_MISMATCH, Except.error.injEq] at h
              omega
            · simp at h

theorem pk_get_ecparams_errorNeg {b : Buf} {p e : Nat} {r : Int}
    (h : pk_get_ecparams b p e = .error r) : r < 0 := by
  unfold pk_get_ecparams at h
  simp only [] at h
  split at h
  · rename_i r1 heq
    simp only [Except.error.injEq] at h
    have := asn1_get_tag_errorNeg heq
    simp only [POLARSSL_ERR_PK_KEY_INVALID_FORMAT] at h
    omega
  · split at h
    · simp only [POLARSSL_ERR_PK_KEY_INVALID_FORMAT, POLARSSL_ERR_ASN1_LENGTH_MISMATCH,
        Except.error.injEq] at h
      omega
    · simp at h

theorem pk_use_ecparams_errorNeZero {env : Env} {ps : asn1_buf} {grp : Nat} {r : Int}
    (h : pk_use_ecparams env ps grp = .error r) : r ≠ 0 := by
  unfold pk_use_ecparams at h
  split at h
  · simp only [POLARSSL_ERR_PK_UNKNOWN_NAMED_CURVE, Except.error.injEq] at h
    omega
  · split at h
    · simp only [POLARSSL_ERR_PK_KEY_INVALID_FORMAT, Except.error.injEq] at h
      omega
    · split at h
      · rename_i hg
        simp only [Except.error.injEq] at h
        subst h
        exact hg
      · simp at h

/-! Claim C1. -/

/-- Environment in which the sub-object allocation of `pk_init_ctx` fails
(malloc failure), every other collaborator behaving as in `env0`. -/
def envNoAlloc : Env := { env0 with ctx_alloc := fun _ => false }

/-- Claim C1 (code bug): on the DER PKCS#1 fallback path, when
`pk_init_ctx` itself fails, `pk_parse_key` returns 0 — a success outcome —
while the destination context is still uninitialized, so a success outcome
does not imply a populated, validated key context. -/
theorem C1_success_outcome_with_uninitialized_context :
    pk_parse_key envNoAlloc .uninit [] 0 [] 0 = (0, pk_ctx.uninit) := by decide

/-! Claim C4. -/

/-- Claim C4 (counterexample): the ECParameters CHOICE `implicitCurve NULL`
(bytes `05 00`), handed to `pk_get_ecparams` as on the SEC1 `[0]`
parameters path, fails with `InvalidFormat + UnexpectedTag`, not with
`UnknownNamedCurve`. -/
theorem C4_counterexample :
    pk_get_ecparams [0x05, 0x00] 0 2 =
      .error (POLARSSL_ERR_PK_KEY_INVALID_FORMAT + POLARSSL_ERR_ASN1_UNEXPECTED_TAG) ∧
    POLARSSL_ERR_PK_KEY_INVALID_FORMAT + POLARSSL_ERR_ASN1_UNEXPECTED_TAG ≠
      POLARSSL_ERR_PK_UNKNOWN_NAMED_CURVE := by decide

/-- Claim C4 (amended): a non-namedCurve CHOICE yields `UnknownNamedCurve`
only on the paths that resolve the parameters by OID lookup
(`pk_use_ecparams`, reached from the SPKI and PKCS#8 parsers), where any
unrecognized parameter bytes give `UnknownNamedCurve`; on the SEC1 `[0]`
parameters path `pk_get_ecparams` first requires the OBJECT IDENTIFIER
tag, so `implicitCurve` and `specifiedCurve` fail with
`InvalidFormat + UnexpectedTag` instead. -/
theorem C4_amended (env : Env) (ps : asn1_buf) (grp : Nat) (b : Buf) (p e : Nat) :
    (env.oid_get_ec_grp ps.bytes = Option.none →
      pk_use_ecparams env ps grp = .error POLARSSL_ERR_PK_UNKNOWN_NAMED_CURVE) ∧
    (p < e → byteAt b p ≠ ASN1_OID →
      pk_get_ecparams b p e =
        .error (POLARSSL_ERR_PK_KEY_INVALID_FORMAT + POLARSSL_ERR_ASN1_UNEXPECTED_TAG)) := by
  constructor
  · intro h
    unfold pk_use_ecparams
    rw [h]
  · intro hpe hb
    unfold pk_get_ecparams asn1_get_tag
    rw [if_neg (by omega), if_pos hb]

/-- Claim C4 witness: the amended theorem applied to the NULL CHOICE
`05 00` (whose empty parameter bytes no curve table recognizes). -/
theorem C4_amended_witness :
    (pk_use_ecparams env0 { tag := 5, bytes := [] } 0 =
      .error POLARSSL_ERR_PK_UNKNOWN_NAMED_CURVE) ∧
    (pk_get_ecparams [0x05, 0x00] 0 2 =
      .error (POLARSSL_ERR_PK_KEY_INVALID_FORMAT + POLARSSL_ERR_ASN1_UNEXPECTED_TAG)) :=
  let h := C4_amended env0 { tag := 5, bytes := [] } 0 [0x05, 0x00] 0 2
  ⟨h.1 (by decide), h.2 (by decide) (by decide)⟩

/-! Claim C5. -/

/-- SubjectPublicKeyInfo for the RSA OID `2A` whose outer SEQUENCE carries
one trailing byte `AA` after the subjectPublicKey BIT STRING. -/
def derSpkiTrail : Buf :=
  [0x30, 0x0C, 0x30, 0x05, 0x06, 0x01, 0x2A, 0x05, 0x00, 0x03, 0x02, 0x00, 0xC3, 0xAA]

/-- Claim C5: for every SubjectPublicKeyInfo whose outer SEQUENCE contains
trailing bytes after the subjectPublicKey BIT STRING, `pk_parse_subpubkey`
fails with the arithmetic composition of `InvalidPubkey` and
`LengthMismatch`; moreover the operator-less composition at the
trailing-bytes check site (`pk_subpubkey_trailing_ret`) evaluates to the
same composed value. -/
theorem C5_subpubkey_trailing_bytes (env : Env) (b : Buf) (p e : Nat) (pk : pk_ctx)
    (l p1 : Nat) (alg : pk_type) (ps : asn1_buf) (p2 l2 p3 : Nat)
    (h1 : asn1_get_tag b p e (ASN1_CONSTRUCTED + ASN1_SEQUENCE) = .ok (l, p1))
    (h2 : pk_get_pk_alg env b p1 (p1 + l) = .ok (alg, ps, p2))
    (h3 : asn1_get_bitstring_null b p2 (p1 + l) = .ok (l2, p3))
    (h4 : p3 + l2 ≠ p1 + l) :
    (pk_parse_subpubkey env b p e pk).1 =
      POLARSSL_ERR_PK_INVALID_PUBKEY + POLARSSL_ERR_ASN1_LENGTH_MISMATCH ∧
    pk_subpubkey_trailing_ret =
      POLARSSL_ERR_PK_INVALID_PUBKEY + POLARSSL_ERR_ASN1_LENGTH_MISMATCH := by
  constructor
  · unfold pk_parse_subpubkey
    rw [h1]
    simp only [h2, h3]
    simp [h4]
  · decide

/-- Claim C5 witness: the theorem applied to `derSpkiTrail`. -/
theorem C5_witness :
    (pk_parse_subpubkey env0 derSpkiTrail 0 14 .uninit).1 =
      POLARSSL_ERR_PK_INVALID_PUBKEY + POLARSSL_ERR_ASN1_LENGTH_MISMATCH ∧
    pk_subpubkey_trailing_ret =
      POLARSSL_ERR_PK_INVALID_PUBKEY + POLARSSL_ERR_ASN1_LENGTH_MISMATCH :=
  C5_subpubkey_trailing_bytes env0 derSpkiTrail 0 14 .uninit 12 2 pk_type.RSA
    { tag := 5, bytes := [] } 9 1 12 (by decide) (by decide) (by decide) (by decide)

/-! Claim C6. -/

/-- Claim C6: when the AlgorithmIdentifier resolves to the RSA algorithm,
`pk_get_pk_alg` fails with `InvalidAlg` unless the parameters field is
absent (zeroed view) or an ASN.1 NULL with empty content — in particular
an OCTET STRING in the parameters position yields `InvalidAlg` — and
succeeds in exactly the allowed cases. -/
theorem C6_rsa_params_null_or_absent (env : Env) (b : Buf) (p e : Nat)
    (alg ps : asn1_buf) (p1 : Nat)
    (h1 : asn1_get_alg b p e = .ok (alg, ps, p1))
    (h2 : env.oid_get_pk_alg alg.bytes = some pk_type.RSA) :
    (¬ ((ps.tag = ASN1_NULL ∨ ps.tag = 0) ∧ ps.bytes.length = 0) →
       pk_get_pk_alg env b p e = .error POLARSSL_ERR_PK_INVALID_ALG) ∧
    (((ps.tag = ASN1_NULL ∨ ps.tag = 0) ∧ ps.bytes.length = 0) →
       pk_get_pk_alg env b p e = .ok (pk_type.RSA, ps, p1)) := by
  constructor <;> intro h3 <;>
    (unfold pk_get_pk_alg
     simp only [h1, h2]
     split)
  · rfl
  · rename_i hc
    exact absurd (show ((ps.tag ≠ ASN1_NULL ∧ ps.tag ≠ 0) ∨ ps.bytes.length ≠ 0) by
      tauto) (by tauto)
  · rename_i hc
    exact absurd hc.2 (by tauto)
  · rfl

/-- AlgorithmIdentifier whose OID resolves to RSA but whose parameters are
an OCTET STRING `04 01 FF`. -/
def derAlgOctet : Buf := [0x30, 0x06, 0x06, 0x01, 0x2A, 0x04, 0x01, 0xFF]

/-- Claim C6 witness: the theorem applied to `derAlgOctet`. -/
theorem C6_witness :
    pk_get_pk_alg env0 derAlgOctet 0 8 = .error POLARSSL_ERR_PK_INVALID_ALG :=
  (C6_rsa_params_null_or_absent env0 derAlgOctet 0 8
    { tag := 6, bytes := [0x2A] } { tag := 4, bytes := [0xFF] } 8
    (by decide) (by decide)).1 (by decide)

/-! Claim C7. -/

/-- Claim C7: a PKCS#1 RSAPrivateKey whose SEQUENCE still has bytes after
the coefficient QP (such as otherPrimeInfos) makes
`pk_parse_key_pkcs1_der` fail with `LengthMismatch` composed into the
`InvalidFormat` domain, and the rsa context is freed. -/
theorem C7_pkcs1_trailing_bytes (env : Env) (rsa0 : rsa_context) (key : Buf)
    (p0 keylen : Nat) (l p1 p2 : Nat)
    (nN nE nD nP nQ nDP nDQ nQP : Nat) (p3 p4 p5 p6 p7 p8 p9 p10 : Nat)
    (h0 : asn1_get_tag key p0 (p0 + keylen) (ASN1_CONSTRUCTED + ASN1_SEQUENCE) = .ok (l, p1))
    (h1 : asn1_get_int key p1 (p1 + l) = .ok (0, p2))
    (h2 : asn1_get_mpi key p2 (p1 + l) = .ok (nN, p3))
    (h3 : asn1_get_mpi key p3 (p1 + l) = .ok (nE, p4))
    (h4 : asn1_get_mpi key p4 (p1 + l) = .ok (nD, p5))
    (h5 : asn1_get_mpi key p5 (p1 + l) = .ok (nP, p6))
    (h6 : asn1_get_mpi key p6 (p1 + l) = .ok (nQ, p7))
    (h7 : asn1_get_mpi key p7 (p1 + l) = .ok (nDP, p8))
    (h8 : asn1_get_mpi key p8 (p1 + l) = .ok (nDQ, p9))
    (h9 : asn1_get_mpi key p9 (p1 + l) = .ok (nQP, p10))
    (h10 : p10 ≠ p1 + l) :
    pk_parse_key_pkcs1_der env rsa0 key p0 keylen =
      (POLARSSL_ERR_PK_KEY_INVALID_FORMAT + POLARSSL_ERR_ASN1_LENGTH_MISMATCH,
       rsa_free { rsa0 with
                  ver := 0, N := nN, E := nE, D := nD, P := nP, Q := nQ,
                  DP := nDP, DQ := nDQ, QP := nQP, len := mpi_size nN }) := by
  unfold pk_parse_key_pkcs1_der
  simp only [h0, h1, h2, h3, h4, h5, h6, h7, h8, h9]
  simp [h10]

/-- PKCS#1 RSAPrivateKey with one trailing byte `AA` after QP inside the
SEQUENCE. -/
def derPkcs1Trail : Buf :=
  [0x30, 0x1C, 0x02, 0x01, 0x00,
   0x02, 0x01, 0x01, 0x02, 0x01, 0x01, 0x02, 0x01, 0x01, 0x02, 0x01, 0x01,
   0x02, 0x01, 0x01, 0x02, 0x01, 0x01, 0x02, 0x01, 0x01, 0x02, 0x01, 0x01, 0xAA]

/-- Claim C7 witness: the theorem applied to `derPkcs1Trail`. -/
theorem C7_witness :
    pk_parse_key_pkcs1_der env0 rsa_init derPkcs1Trail 0 30 =
      (POLARSSL_ERR_PK_KEY_INVALID_FORMAT + POLARSSL_ERR_ASN1_LENGTH_MISMATCH,
       rsa_free { rsa_init with
                  ver := 0, N := 1, E := 1, D := 1, P := 1, Q := 1,
                  DP := 1, DQ := 1, QP := 1, len := mpi_size 1 }) :=
  C7_pkcs1_trailing_bytes env0 rsa_init derPkcs1Trail 0 30 28 2 5
    1 1 1 1 1 1 1 1 8 11 14 17 20 23 26 29
    (by decide) (by decide) (by decide) (by decide) (by decide) (by decide)
    (by decide) (by decide) (by decide) (by decide) (by decide)

/-! Claim C9. -/

/-- Claim C9: when the encryption OID is PKCS#12 SHA1-RC4-128 and the
decryption succeeds, `pk_parse_key_pkcs8_encrypted_der` inspects the first
plaintext byte: if it is not 0x30 (ASN.1 constructed SEQUENCE) the result
is `PasswordMismatch`, and only plaintexts starting with 0x30 are re-fed
to the PrivateKeyInfo parser. -/
theorem C9_rc4_first_byte_heuristic (env : Env) (pk : pk_ctx) (key : Buf)
    (keylen : Nat) (pwd : Buf) (pwdlen : Nat) (l p1 : Nat)
    (oid ps : asn1_buf) (p2 l2 p3 : Nat) (pt : Buf)
    (hp : pwdlen ≠ 0)
    (h1 : asn1_get_tag key 0 keylen (ASN1_CONSTRUCTED + ASN1_SEQUENCE) = .ok (l, p1))
    (h2 : asn1_get_alg key p1 (p1 + l) = .ok (oid, ps, p2))
    (h3 : asn1_get_tag key p2 (p1 + l) ASN1_OCTET_STRING = .ok (l2, p3))
    (h4 : l2 ≤ 2048)
    (h5 : env.oid_get_pkcs12_pbe_alg oid.bytes = false)
    (h6 : env.oid_is_pkcs12_sha1_rc4_128 oid.bytes = true)
    (h7 : env.pkcs12_pbe_sha1_rc4_128 ps pwd pwdlen (subBuf key p3 l2) = .ok pt) :
    (byteAt pt 0 ≠ ASN1_CONSTRUCTED + ASN1_SEQUENCE →
       pk_parse_key_pkcs8_encrypted_der env pk key keylen pwd pwdlen =
         (POLARSSL_ERR_PK_PASSWORD_MISMATCH, pk)) ∧
    (byteAt pt 0 = ASN1_CONSTRUCTED + ASN1_SEQUENCE →
       pk_parse_key_pkcs8_encrypted_der env pk key keylen pwd pwdlen =
         pk_parse_key_pkcs8_unencrypted_der env pk pt l2) := by
  have h4n : ¬ (l2 > 2048) := by omega
  constructor <;> intro h8 <;>
    (unfold pk_parse_key_pkcs8_encrypted_der
     simp only [hp, h1, h2, h3, h4n, h5, h6, h7, if_neg, if_false, Bool.false_eq_true,
       ite_false, ite_true]
     simp [h8])

/-- EncryptedPrivateKeyInfo with the RC4 OID `0C` and an empty
encryptedData OCTET STRING. -/
def derEncRc4 : Buf := [0x30, 0x07, 0x30, 0x03, 0x06, 0x01, 0x0C, 0x04, 0x00]

/-- Claim C9 witness: under `env0` the RC4 decryptor returns the plaintext
`[0x41]`, whose first byte is not 0x30, so the parse reports
`PasswordMismatch`. -/
theorem C9_witness :
    pk_parse_key_pkcs8_encrypted_der env0 .uninit derEncRc4 9 [0x71] 1 =
      (POLARSSL_ERR_PK_PASSWORD_MISMATCH, pk_ctx.uninit) :=
  (C9_rc4_first_byte_heuristic env0 .uninit derEncRc4 9 [0x71] 1 7 2
    { tag := 6, bytes := [0x0C] } asn1_buf_zero 7 0 9 [0x41]
    (by decide) (by decide) (by decide) (by decide) (by decide) (by decide)
    (by decide) (by decide)).1 (by decide)

/-! Claim C10. -/

/-- Claim C10: the PrivateKeyInfo parser never requires the outer SEQUENCE
to span the whole declared buffer — once the outer header is decoded the
declared length plays no further role, so trailing bytes after the outer
SEQUENCE are ignored; and the decrypted PKCS#8 plaintext is re-fed with
the full ciphertext length, so residual padding after the SEQUENCE does
not cause an error. -/
theorem C10_trailing_ignored_and_refeed_length (env : Env) (pk : pk_ctx) :
    (∀ b keylen keylen2 l p1,
       asn1_get_tag b 0 keylen (ASN1_CONSTRUCTED + ASN1_SEQUENCE) = .ok (l, p1) →
       asn1_get_tag b 0 keylen2 (ASN1_CONSTRUCTED + ASN1_SEQUENCE) = .ok (l, p1) →
       pk_parse_key_pkcs8_unencrypted_der env pk b keylen =
         pk_parse_key_pkcs8_unencrypted_der env pk b keylen2) ∧
    (∀ key keylen pwd pwdlen l p1 oid ps p2 l2 p3 pt,
       pwdlen ≠ 0 →
       asn1_get_tag key 0 keylen (ASN1_CONSTRUCTED + ASN1_SEQUENCE) = .ok (l, p1) →
       asn1_get_alg key p1 (p1 + l) = .ok (oid, ps, p2) →
       asn1_get_tag key p2 (p1 + l) ASN1_OCTET_STRING = .ok (l2, p3) →
       l2 ≤ 2048 →
       env.oid_get_pkcs12_pbe_alg oid.bytes = false →
       env.oid_is_pkcs12_sha1_rc4_128 oid.bytes = false →
       env.oid_is_pkcs5_pbes2 oid.bytes = true →
       env.pkcs5_pbes2 ps pwd pwdlen (subBuf key p3 l2) = .ok pt →
       pk_parse_key_pkcs8_encrypted_der env pk key keylen pwd pwdlen =
         pk_parse_key_pkcs8_unencrypted_der env pk pt l2) := by
  constructor
  · intro b keylen keylen2 l p1 h1 h2
    unfold pk_parse_key_pkcs8_unencrypted_der
    rw [h1, h2]
  · intro key keylen pwd pwdlen l p1 oid ps p2 l2 p3 pt hp h1 h2 h3 h4 h5 h6 h7 h8
    have h4n : ¬ (l2 > 2048) := by omega
    unfold pk_parse_key_pkcs8_encrypted_der
    simp only [hp, h1, h2, h3, h4n, h5, h6, h7, h8, if_neg, if_false,
      Bool.false_eq_true, ite_false, ite_true]

/-- The PrivateKeyInfo `ptPKI` followed by two junk bytes, parsed with the
full declared length. -/
def ptPKITrail : Buf := ptPKI ++ [0xEE, 0xEE]

/-- Claim C10 witness: parsing the 45-byte padded buffer with declared
length 45 equals parsing with the exact SEQUENCE span 43 (first conjunct
of the theorem), and that parse succeeds. -/
theorem C10_witness :
    (pk_parse_key_pkcs8_unencrypted_der env0 .uninit ptPKITrail 45 =
       pk_parse_key_pkcs8_unencrypted_der env0 .uninit ptPKITrail 43) ∧
    (pk_parse_key_pkcs8_unencrypted_der env0 .uninit ptPKITrail 45).1 = 0 :=
  ⟨(C10_trailing_ignored_and_refeed_length env0 .uninit).1 ptPKITrail 45 43 41 2
     (by decide) (by decide),
   by decide⟩

/-! Claim C8. -/

theorem sec1_end_out (env : Env) (eck : ecp_keypair) (out : Int × ecp_keypair)
    (hout : pk_parse_key_sec1_der_end env eck = out) (h0 : out.1 = 0) :
    out = (0, eck) ∧ env.ecp_check_privkey eck.grp_id eck.d = 0 := by
  unfold pk_parse_key_sec1_der_end at hout
  split at hout
  · rename_i hc
    subst hout
    try simp at h0
    exact absurd h0 hc
  · rename_i hc
    rw [not_not] at hc
    subst hout
    exact ⟨rfl, hc⟩

theorem sec1_pub_check (env : Env)
    (hmul : ∀ g d e2, env.ecp_mul_G g d = .error e2 → e2 < 0)
    (eck : ecp_keypair) (key : Buf) (p e : Nat) (out : Int × ecp_keypair)
    (hout : pk_parse_key_sec1_der_pub env eck key p e = out) (h0 : out.1 = 0) :
    env.ecp_check_privkey out.2.grp_id out.2.d = 0 := by
  unfold pk_parse_key_sec1_der_pub at hout
  split at hout
  · try simp only [] at hout
    split at hout
    · rename_i r heq
      subst hout
      have hr := asn1_get_bitstring_null_errorNeg heq
      simp only [POLARSSL_ERR_PK_KEY_INVALID_FORMAT] at h0
      try simp at h0
      omega
    · split at hout
      · subst hout
        simp [POLARSSL_ERR_PK_KEY_INVALID_FORMAT,
          POLARSSL_ERR_ASN1_LENGTH_MISMATCH] at h0
      · split at hout
        · rename_i hne
          subst hout
          try simp at h0
          exact absurd h0 hne
        · obtain ⟨ho, hc⟩ := sec1_end_out env _ out hout h0
          rw [ho]
          exact hc
  · rename_i r heq
    split at hout
    · subst hout
      have hr := asn1_get_tag_errorNeg heq
      simp only [POLARSSL_ERR_PK_KEY_INVALID_FORMAT] at h0
      try simp at h0
      omega
    · split at hout
      · rename_i e2 hm
        subst hout
        have hr := hmul _ _ _ hm
        simp only [POLARSSL_ERR_PK_KEY_INVALID_FORMAT] at h0
        try simp at h0
        omega
      · rename_i q hm
        obtain ⟨ho, hc⟩ := sec1_end_out env _ out hout h0
        rw [ho]
        exact hc

theorem sec1_check_on_success (env : Env)
    (hmul : ∀ g d e2, env.ecp_mul_G g d = .error e2 → e2 < 0)
    (eck0 : ecp_keypair) (key : Buf) (p0 keylen : Nat) (out : Int × ecp_keypair)
    (hout : pk_parse_key_sec1_der env eck0 key p0 keylen = out) (h0 : out.1 = 0) :
    env.ecp_check_privkey out.2.grp_id out.2.d = 0 := by
  unfold pk_parse_key_sec1_der at hout
  split at hout
  · rename_i r heq
    subst hout
    have hr := asn1_get_tag_errorNeg heq
    simp only [POLARSSL_ERR_PK_KEY_INVALID_FORMAT] at h0
    try simp at h0
    omega
  · try simp only [] at hout
    split at hout
    · rename_i r heq
      subst hout
      have hr := asn1_get_int_errorNeg heq
      simp only [POLARSSL_ERR_PK_KEY_INVALID_FORMAT] at h0
      try simp at h0
      omega
    · split at hout
      · subst hout
        simp [POLARSSL_ERR_PK_KEY_INVALID_VERSION] at h0
      · split at hout
        · rename_i r heq
          subst hout
          have hr := asn1_get_tag_errorNeg heq
          simp only [POLARSSL_ERR_PK_KEY_INVALID_FORMAT] at h0
          try simp at h0
          omega
        · try simp only [] at hout
          split at hout
          · split at hout
            · rename_i r heq
              subst hout
              have hr := pk_get_ecparams_errorNeg heq
              try simp at h0
              omega
            · split at hout
              · rename_i r heq
                subst hout
                have hr := pk_use_ecparams_errorNeZero heq
                try simp at h0
                exact absurd h0 hr
              · exact sec1_pub_check env hmul _ key _ _ out hout h0
          · split at hout
            · rename_i r heq hne
              subst hout
              have hr := asn1_get_tag_errorNeg heq
              simp only [POLARSSL_ERR_PK_KEY_INVALID_FORMAT] at h0
              try simp at h0
              omega
            · exact sec1_pub_check env hmul _ key _ _ out hout h0

/-- Claim C8: for every SEC1 ECPrivateKey input accepted by
`pk_parse_key_sec1_der`, `ecp_check_privkey` holds for the resulting
private scalar; and in the `[1]` publicKey-absent case the public point of
every accepted result equals d times the base point, while a failing
multiplication or a failing private-scalar check returns an error with the
keypair freed. -/
theorem C8_sec1_check_and_derived_pubkey (env : Env)
    (hmul : ∀ g d e2, env.ecp_mul_G g d = .error e2 → e2 < 0) :
    (∀ eck0 key p0 keylen out,
       pk_parse_key_sec1_der env eck0 key p0 keylen = out → out.1 = 0 →
       env.ecp_check_privkey out.2.grp_id out.2.d = 0) ∧
    (∀ eck key p e out,
       asn1_get_tag key p e (ASN1_CONTEXT_SPECIFIC + ASN1_CONSTRUCTED + 1) =
         .error POLARSSL_ERR_ASN1_UNEXPECTED_TAG →
       pk_parse_key_sec1_der_pub env eck key p e = out →
       (out.1 = 0 → env.ecp_mul_G eck.grp_id eck.d = .ok out.2.Q) ∧
       (∀ e2, env.ecp_mul_G eck.grp_id eck.d = .error e2 →
          out = (POLARSSL_ERR_PK_KEY_INVALID_FORMAT + e2, ecp_keypair_free eck)) ∧
       (∀ q, env.ecp_mul_G eck.grp_id eck.d = .ok q →
          env.ecp_check_privkey eck.grp_id eck.d ≠ 0 →
          out = (env.ecp_check_privkey eck.grp_id eck.d, ecp_keypair_free eck))) := by
  constructor
  · intro eck0 key p0 keylen out hout h0
    exact sec1_check_on_success env hmul eck0 key p0 keylen out hout h0
  · intro eck key p e out hprobe hout
    unfold pk_parse_key_sec1_der_pub at hout
    rw [hprobe] at hout
    simp only [ne_eq, not_true_eq_false, if_false, ite_false] at hout
    refine ⟨?_, ?_, ?_⟩
    · intro h0
      split at hout
      · rename_i e2 hm
        subst hout
        have hr := hmul _ _ _ hm
        simp only [POLARSSL_ERR_PK_KEY_INVALID_FORMAT] at h0
        try simp at h0
        omega
      · rename_i q hm
        obtain ⟨ho, _⟩ := sec1_end_out env _ out hout h0
        rw [ho, hm]
    · intro e2 hm
      rw [hm] at hout
      try simp only [] at hout
      exact hout.symm
    · intro q hm hck
      rw [hm] at hout
      try simp only [] at hout
      unfold pk_parse_key_sec1_der_end at hout
      try simp only [] at hout
      rw [if_pos (by simpa using hck)] at hout
      simp only [ecp_keypair_free] at hout ⊢
      simpa using hout.symm

/-- SEC1 ECPrivateKey with version 1, scalar `02`, `[0]` namedCurve `07`,
no `[1]` publicKey (a trailing `00` byte makes the `[1]` probe report
`UNEXPECTED_TAG`, the only accepting publicKey-absent shape). -/
def derSec1 : Buf :=
  [0x30, 0x0C, 0x02, 0x01, 0x01, 0x04, 0x01, 0x02, 0xA0, 0x03, 0x06, 0x01, 0x07, 0x00]

/-- Claim C8 witness: parsing `derSec1` under `env0` succeeds, the theorem
yields the private-scalar check on the result, and the resulting public
point is d times the base point. -/
theorem C8_witness :
    (pk_parse_key_sec1_der env0 ecp_keypair_init derSec1 0 14).1 = 0 ∧
    env0.ecp_check_privkey
      (pk_parse_key_sec1_der env0 ecp_keypair_init derSec1 0 14).2.grp_id
      (pk_parse_key_sec1_der env0 ecp_keypair_init derSec1 0 14).2.d = 0 ∧
    env0.ecp_mul_G 3 2 = .ok (pk_parse_key_sec1_der env0 ecp_keypair_init derSec1 0 14).2.Q :=
  ⟨by decide,
   (C8_sec1_check_and_derived_pubkey env0
      (by intro g d e2 h; exact absurd h (by simp [env0]))).1
     ecp_keypair_init derSec1 0 14 _ rfl (by decide),
   by decide⟩

/-! Claim C2. -/

/-- Written from the claim's words (a refinement spec, deliberately not
from the source): with no PEM label matching, try the DER parsers in
exactly the order encrypted PKCS#8, unencrypted PKCS#8, PKCS#1
RSAPrivateKey, SEC1 ECPrivateKey, each attempt starting from a fresh
uninitialized context, returning the first success; a `PasswordMismatch`
from the encrypted PKCS#8 attempt is returned immediately without trying
later parsers; if every attempt fails the result is `InvalidFormat`. -/
def der_fallback_spec (env : Env) (key : Buf) (keylen : Nat) (pwd : Buf)
    (pwdlen : Nat) : Int × pk_ctx :=
  let a1 := pk_parse_key_pkcs8_encrypted_der env .uninit key keylen pwd pwdlen
  if a1.1 = 0 then a1
  else if a1.1 = POLARSSL_ERR_PK_PASSWORD_MISMATCH then
    (POLARSSL_ERR_PK_PASSWORD_MISMATCH, .uninit)
  else
    let a2 := pk_parse_key_pkcs8_unencrypted_der env .uninit key keylen
    if a2.1 = 0 then a2
    else
      let a3 := pk_parse_key_pkcs1_der env rsa_init key 0 keylen
      if a3.1 = 0 then (0, .rsa a3.2)
      else
        let a4 := pk_parse_key_sec1_der env ecp_keypair_init key 0 keylen
        if a4.1 = 0 then (0, .eckey a4.2)
        else (POLARSSL_ERR_PK_KEY_INVALID_FORMAT, .uninit)

theorem pk_parse_key_pem_miss (env : Env) (key : Buf) (keylen : Nat)
    (pwd : Buf) (pwdlen : Nat)
    (halloc : ∀ a, env.ctx_alloc a = true)
    (h1 : env.pem_read .rsaKey key pwd pwdlen =
            .fail POLARSSL_ERR_PEM_NO_HEADER_FOOTER_PRESENT)
    (h2 : env.pem_read .ecKey key pwd pwdlen =
            .fail POLARSSL_ERR_PEM_NO_HEADER_FOOTER_PRESENT)
    (h3 : env.pem_read .pkcs8 key [] 0 =
            .fail POLARSSL_ERR_PEM_NO_HEADER_FOOTER_PRESENT)
    (h4 : env.pem_read .pkcs8enc key [] 0 =
            .fail POLARSSL_ERR_PEM_NO_HEADER_FOOTER_PRESENT) :
    pk_parse_key env .uninit key keylen pwd pwdlen =
      der_fallback_spec env key keylen pwd pwdlen := by
  unfold pk_parse_key der_fallback_spec
  rw [h1, h2, h3, h4]
  simp only [POLARSSL_ERR_PEM_NO_HEADER_FOOTER_PRESENT,
    POLARSSL_ERR_PEM_PASSWORD_MISMATCH, POLARSSL_ERR_PEM_PASSWORD_REQUIRED]
  norm_num
  by_cases ha1 :
      (pk_parse_key_pkcs8_encrypted_der env pk_ctx.uninit key keylen pwd pwdlen).1 = 0
  · simp [ha1, Prod.ext_iff]
  · simp only [ha1, if_false, ite_false]
    by_cases hb1 :
        (pk_parse_key_pkcs8_encrypted_der env pk_ctx.uninit key keylen pwd pwdlen).1 =
          POLARSSL_ERR_PK_PASSWORD_MISMATCH
    · simp [hb1, pk_free]
    · simp only [hb1, if_false, ite_false, pk_free]
      by_cases ha2 :
          (pk_parse_key_pkcs8_unencrypted_der env pk_ctx.uninit key keylen).1 = 0
      · simp [ha2, Prod.ext_iff]
      · simp only [ha2, if_false, ite_false, pk_free]
        simp only [pk_init_ctx, halloc pk_type.RSA, halloc pk_type.ECKEY]
        norm_num [pk_rsa, pk_set_rsa, pk_ec, pk_set_ec, pk_free]

/-- Claim C2: for every input on which no PEM label matches (all four PEM
recognizers report no header/footer) and with a working allocator,
`pk_parse_key` on a fresh context equals the claim's fallback order
`der_fallback_spec`: encrypted PKCS#8, then unencrypted PKCS#8, then
PKCS#1, then SEC1, first success wins, `PasswordMismatch` from the
encrypted attempt short-circuits, and total failure yields
`InvalidFormat`. -/
theorem C2_der_dispatch_order (env : Env) (key : Buf) (keylen : Nat)
    (pwd : Buf) (pwdlen : Nat)
    (halloc : ∀ a, env.ctx_alloc a = true)
    (h1 : env.pem_read .rsaKey key pwd pwdlen =
            .fail POLARSSL_ERR_PEM_NO_HEADER_FOOTER_PRESENT)
    (h2 : env.pem_read .ecKey key pwd pwdlen =
            .fail POLARSSL_ERR_PEM_NO_HEADER_FOOTER_PRESENT)
    (h3 : env.pem_read .pkcs8 key [] 0 =
            .fail POLARSSL_ERR_PEM_NO_HEADER_FOOTER_PRESENT)
    (h4 : env.pem_read .pkcs8enc key [] 0 =
            .fail POLARSSL_ERR_PEM_NO_HEADER_FOOTER_PRESENT) :
    pk_parse_key env .uninit key keylen pwd pwdlen =
      der_fallback_spec env key keylen pwd pwdlen :=
  pk_parse_key_pem_miss env key keylen pwd pwdlen halloc h1 h2 h3 h4

/-- Claim C2 witness: the theorem applied to the empty input (all attempts
fail), whose fallback result is `InvalidFormat`. -/
theorem C2_witness :
    pk_parse_key env0 .uninit [] 0 [0x70] 1 = der_fallback_spec env0 [] 0 [0x70] 1 ∧
    der_fallback_spec env0 [] 0 [0x70] 1 =
      (POLARSSL_ERR_PK_KEY_INVALID_FORMAT, pk_ctx.uninit) :=
  ⟨C2_der_dispatch_order env0 [] 0 [0x70] 1 (by intro a; rfl)
     (by decide) (by decide) (by decide) (by decide),
   by decide⟩

/-! Claim C3. -/

/-- A DER EncryptedPrivateKeyInfo: PBES2-recognized OID `0D`, encryptedData
of 43 bytes (decrypting, under the right password, to `ptPKI`). -/
def derEncPK8 : Buf :=
  [0x30, 0x32, 0x30, 0x03, 0x06, 0x01, 0x0D, 0x04, 0x2B] ++ ptPKI

/-- Claim C3 (counterexample): `derEncPK8` is genuinely encrypted key
material (with the right password the parse succeeds), yet with a
zero-length password `pk_parse_key` returns `InvalidFormat`, not
`PasswordRequired` — the encrypted attempt's `PasswordRequired` is
discarded by the DER fallback chain. -/
theorem C3_counterexample :
    (pk_parse_key env0 .uninit derEncPK8 52 [] 0).1 = POLARSSL_ERR_PK_KEY_INVALID_FORMAT ∧
    POLARSSL_ERR_PK_KEY_INVALID_FORMAT ≠ POLARSSL_ERR_PK_PASSWORD_REQUIRED ∧
    (pk_parse_key env0 .uninit derEncPK8 52 [0x70] 1).1 = 0 := by decide

theorem der_fallback_spec_ne_pw_required (env : Env) (key : Buf) (keylen : Nat)
    (pwd : Buf) (pwdlen : Nat) :
    (der_fallback_spec env key keylen pwd pwdlen).1 ≠
      POLARSSL_ERR_PK_PASSWORD_REQUIRED := by
  unfold der_fallback_spec
  by_cases ha1 :
      (pk_parse_key_pkcs8_encrypted_der env pk_ctx.uninit key keylen pwd pwdlen).1 = 0
  · simp [ha1, POLARSSL_ERR_PK_PASSWORD_REQUIRED]
  · simp only [ha1, if_false, ite_false]
    by_cases hb1 :
        (pk_parse_key_pkcs8_encrypted_der env pk_ctx.uninit key keylen pwd pwdlen).1 =
          POLARSSL_ERR_PK_PASSWORD_MISMATCH
    · simp [hb1, POLARSSL_ERR_PK_PASSWORD_MISMATCH, POLARSSL_ERR_PK_PASSWORD_REQUIRED]
    · simp only [hb1, if_false, ite_false]
      by_cases ha2 :
          (pk_parse_key_pkcs8_unencrypted_der env pk_ctx.uninit key keylen).1 = 0
      · simp [ha2, POLARSSL_ERR_PK_PASSWORD_REQUIRED]
      · simp only [ha2, if_false, ite_false]
        by_cases ha3 : (pk_parse_key_pkcs1_der env rsa_init key 0 keylen).1 = 0
        · simp [ha3, POLARSSL_ERR_PK_PASSWORD_REQUIRED]
        · simp only [ha3, if_false, ite_false]
          by_cases ha4 : (pk_parse_key_sec1_der env ecp_keypair_init key 0 keylen).1 = 0
          · simp [ha4, POLARSSL_ERR_PK_PASSWORD_REQUIRED]
          · simp [ha4, POLARSSL_ERR_PK_KEY_INVALID_FORMAT,
              POLARSSL_ERR_PK_PASSWORD_REQUIRED]

/-- Claim C3 (amended): `PasswordRequired` surfaces from `pk_parse_key`
only through the PEM paths.  If no PEM label matches, the final result is
never `PasswordRequired`, even for encrypted DER input with an empty
password (the encrypted attempt's `PasswordRequired` is discarded and the
fallback chain ends in another code); if the ENCRYPTED PRIVATE KEY PEM
label matches and the password has zero length, the result is
`PasswordRequired`; and a `PasswordRequired` from the PEM decoder (a
DEK-Info-encrypted block with no password) is mapped to
`PasswordRequired`. -/
theorem C3_password_required_only_via_pem :
    (∀ env key keylen pwd pwdlen,
       (∀ a, Env.ctx_alloc env a = true) →
       env.pem_read .rsaKey key pwd pwdlen =
         .fail POLARSSL_ERR_PEM_NO_HEADER_FOOTER_PRESENT →
       env.pem_read .ecKey key pwd pwdlen =
         .fail POLARSSL_ERR_PEM_NO_HEADER_FOOTER_PRESENT →
       env.pem_read .pkcs8 key [] 0 =
         .fail POLARSSL_ERR_PEM_NO_HEADER_FOOTER_PRESENT →
       env.pem_read .pkcs8enc key [] 0 =
         .fail POLARSSL_ERR_PEM_NO_HEADER_FOOTER_PRESENT →
       (pk_parse_key env .uninit key keylen pwd pwdlen).1 ≠
         POLARSSL_ERR_PK_PASSWORD_REQUIRED) ∧
    (∀ env key keylen pwd payload,
       env.pem_read .rsaKey key pwd 0 =
         .fail POLARSSL_ERR_PEM_NO_HEADER_FOOTER_PRESENT →
       env.pem_read .ecKey key pwd 0 =
         .fail POLARSSL_ERR_PEM_NO_HEADER_FOOTER_PRESENT →
       env.pem_read .pkcs8 key [] 0 =
         .fail POLARSSL_ERR_PEM_NO_HEADER_FOOTER_PRESENT →
       env.pem_read .pkcs8enc key [] 0 = .ok payload →
       pk_parse_key env .uninit key keylen pwd 0 =
         (POLARSSL_ERR_PK_PASSWORD_REQUIRED, pk_ctx.uninit)) ∧
    (∀ env pk key keylen pwd pwdlen,
       env.pem_read .rsaKey key pwd pwdlen =
         .fail POLARSSL_ERR_PEM_PASSWORD_REQUIRED →
       pk_parse_key env pk key keylen pwd pwdlen =
         (POLARSSL_ERR_PK_PASSWORD_REQUIRED, pk)) := by
  refine ⟨?_, ?_, ?_⟩
  · intro env key keylen pwd pwdlen halloc h1 h2 h3 h4
    rw [pk_parse_key_pem_miss env key keylen pwd pwdlen halloc h1 h2 h3 h4]
    exact der_fallback_spec_ne_pw_required env key keylen pwd pwdlen
  · intro env key keylen pwd payload h1 h2 h3 h4
    unfold pk_parse_key
    rw [h1, h2, h3, h4]
    simp [pk_parse_key_pkcs8_encrypted_der, pk_free,
      POLARSSL_ERR_PEM_NO_HEADER_FOOTER_PRESENT, POLARSSL_ERR_PEM_PASSWORD_MISMATCH,
      POLARSSL_ERR_PEM_PASSWORD_REQUIRED, POLARSSL_ERR_PK_PASSWORD_REQUIRED]
  · intro env pk key keylen pwd pwdlen h1
    unfold pk_parse_key
    rw [h1]
    simp [POLARSSL_ERR_PEM_PASSWORD_MISMATCH, POLARSSL_ERR_PEM_PASSWORD_REQUIRED]

/-- Environment whose PEM decoder recognizes only the ENCRYPTED PRIVATE
KEY label, with an empty payload. -/
def envPemEnc : Env :=
  { env0 with pem_read := fun lbl _ _ _ =>
      if lbl = PemLabel.pkcs8enc then PemResult.ok []
      else PemResult.fail POLARSSL_ERR_PEM_NO_HEADER_FOOTER_PRESENT }

/-- Environment whose PEM decoder reports a required password for the RSA
PEM label (a DEK-Info-encrypted block with no password supplied). -/
def envPemReq : Env :=
  { env0 with pem_read := fun lbl _ _ _ =>
      if lbl = PemLabel.rsaKey then PemResult.fail POLARSSL_ERR_PEM_PASSWORD_REQUIRED
      else PemResult.fail POLARSSL_ERR_PEM_NO_HEADER_FOOTER_PRESENT }

/-- Claim C3 witness: the three parts of the amended theorem applied at
concrete environments and inputs. -/
theorem C3_amended_witness :
    (pk_parse_key env0 .uninit [] 0 [] 0).1 ≠ POLARSSL_ERR_PK_PASSWORD_REQUIRED ∧
    pk_parse_key envPemEnc .uninit [] 0 [] 0 =
      (POLARSSL_ERR_PK_PASSWORD_REQUIRED, pk_ctx.uninit) ∧
    pk_parse_key envPemReq .uninit [] 0 [0x70] 1 =
      (POLARSSL_ERR_PK_PASSWORD_REQUIRED, pk_ctx.uninit) :=
  ⟨C3_password_required_only_via_pem.1 env0 [] 0 [] 0 (fun _ => rfl)
     (by decide) (by decide) (by decide) (by decide),
   C3_password_required_only_via_pem.2.1 envPemEnc [] 0 [] []
     (by decide) (by decide) (by decide) (by decide),
   C3_password_required_only_via_pem.2.2 envPemReq .uninit [] 0 [0x70] 1 (by decide)⟩

end PkParse
